import Mathlib

/-
Verification of the container lifecycle orchestration of the adcm pytest plugin.

Shallow embedding of:
  - src/adcm_pytest_plugin/docker_utils.py  (port allocation, DockerWrapper,
    ContainerConfig, ADCM handle and its upgrade, ADCMInitializer)
  - src/adcm_pytest_plugin/docker/launchers.py  (ADCMLauncher: container start
    retry loop, readiness wait, stop with pre_stop hooks, upgrade)
  - src/adcm_pytest_plugin/docker/steps.py  (prepare_run_arguments hooks)

External effects (docker API calls, TCP probes, HTTP polls, wall clock) are
modelled as explicit inputs (oracles) and explicit effect traces.
-/

/-! ## Substring matching (Python `sub in s`) -/

/-- Whether the list `sub` occurs as a contiguous sublist of the second list. -/
def charsContain (sub : List Char) : List Char → Bool
  | [] => sub.isEmpty
  | c :: rest => sub.isPrefixOf (c :: rest) || charsContain sub rest

/-- Python `sub in s` on strings. -/
def containsSubstring (s sub : String) : Bool :=
  charsContain sub.data s.data

/-! ## Constants (docker_utils.py lines 45-49, launchers.py line 20) -/

def MIN_DOCKER_PORT : Nat := 8000
def MAX_DOCKER_PORT : Nat := 9000
def CONTAINER_START_RETRY_COUNT : Nat := 20
def MAX_WORKER_COUNT : Nat := 80

/-! ## Container start retry loop (launchers.py, `ADCMLauncher._run_adcm_container`)

The docker `containers.run` call is modelled by an oracle `attempt : Nat -> RunOutcome`
giving, for each attempt index, either a started container or an `APIError`
with its `explanation` string. -/

/-- Outcome of one `self._docker.containers.run(...)` call. -/
inductive RunOutcome where
  | started (containerId : Nat)
  | apiError (explanation : String)
deriving DecidableEq

/-- Errors the start loop can raise. -/
inductive RunError where
  | retryCountExceeded (msg : String)
  | apiError (explanation : String)
deriving DecidableEq

/-- The recognized port-collision check of launchers.py lines 76-80:
the `APIError.explanation` contains one of three matched substrings. -/
def isPortCollision (e : String) : Bool :=
  containsSubstring e ("failed: port is already allocated") ||
    containsSubstring e ("bind: address already in use") ||
    containsSubstring e ("bind: cannot assign requested address")

/-- Message of the `RetryCountExceeded` raised after the loop
(`f"Unable to start container after {CONTAINER_START_RETRY_COUNT} retries"`). -/
def retryExceededMsg : String :=
  "Unable to start container after " ++ toString CONTAINER_START_RETRY_COUNT ++ " retries"

/-- The `for _ in range(CONTAINER_START_RETRY_COUNT)` loop of
`_run_adcm_container`: at attempt `i` with `fuel` iterations left, call the
runtime; on success return the container; on an `APIError` whose explanation is
a recognized port collision continue with the next attempt; on any other
`APIError` re-raise it.  When the fuel is exhausted raise `RetryCountExceeded`.
The second component counts how many `containers.run` calls were made. -/
def runContainerAttempts (attempt : Nat → RunOutcome) : Nat → Nat → Except RunError Nat × Nat
  | _, 0 => (.error (.retryCountExceeded retryExceededMsg), 0)
  | i, fuel + 1 =>
    match attempt i with
    | .started c => (.ok c, 1)
    | .apiError e =>
      if isPortCollision e then
        let r := runContainerAttempts attempt (i + 1) fuel
        (r.1, r.2 + 1)
      else (.error (.apiError e), 1)

/-- `ADCMLauncher._run_adcm_container` (launchers.py lines 65-84), abstracted
over the runtime outcome oracle: result together with number of start attempts. -/
def run_adcm_container (attempt : Nat → RunOutcome) : Except RunError Nat × Nat :=
  runContainerAttempts attempt 0 CONTAINER_START_RETRY_COUNT

/-! ## Port allocation (docker_utils.py, `_yield_ports` lines 65-77)

The environment values `PYTEST_XDIST_WORKER_COUNT` (default 0) and the worker
index parsed out of `PYTEST_XDIST_WORKER` (default "gw0", so 0) are the inputs
`workerCount` and `gwNumber`; the TCP probe `_port_is_free(ip, port)` is the
oracle `free : Nat -> Bool`.  The generator first checks the worker count
(a `pytest.exit` before any connect attempt), then scans the window
`[rangeStart, rangeStart + range_length)` and yields every free port; when the
window is exhausted it raises `UnableToBind`. -/

/-- `range_length = (MAX_DOCKER_PORT - MIN_DOCKER_PORT) // MAX_WORKER_COUNT`. -/
def range_length : Nat := (MAX_DOCKER_PORT - MIN_DOCKER_PORT) / MAX_WORKER_COUNT

/-- Result of driving the `_yield_ports` generator to exhaustion:
whether the early `pytest.exit` fired, which ports got a TCP connect attempt,
and which ports were yielded (the free ones, in increasing order). -/
structure PortScan where
  exitedEarly : Bool
  probed : List Nat
  yielded : List Nat
deriving DecidableEq

/-- `_yield_ports(ip, port_from)` of docker_utils.py lines 65-77, run to
exhaustion.  `workerCount > MAX_WORKER_COUNT` fires `pytest.exit` before any
port is probed; otherwise every port of the window gets a connect attempt and
the free ones are yielded. -/
def _yield_ports (workerCount gwNumber portFrom : Nat) (free : Nat → Bool) : PortScan :=
  if workerCount > MAX_WORKER_COUNT then
    { exitedEarly := true, probed := [], yielded := [] }
  else
    let offset := MIN_DOCKER_PORT + gwNumber * range_length
    let rangeStart := max portFrom offset
    let window := (List.range range_length).map (rangeStart + ·)
    { exitedEarly := false, probed := window, yielded := window.filter free }

/-- Outcome of the first `next(...)` on the `_yield_ports` generator. -/
inductive NextPortResult where
  | workerCountExceeded
  | port (p : Nat)
  | unableToBind
deriving DecidableEq

/-- First `next` on the generator: the worker-count exit, the first free
port of the window, or `UnableToBind` when no port of the window is free. -/
def nextPort (workerCount gwNumber portFrom : Nat) (free : Nat → Bool) : NextPortResult :=
  let scan := _yield_ports workerCount gwNumber portFrom free
  if scan.exitedEarly then .workerCountExceeded
  else
    match scan.yielded with
    | [] => .unableToBind
    | p :: _ => .port p

/-- The allocation window of worker `gwNumber`:
`[MIN_DOCKER_PORT + gwNumber * range_length, MIN_DOCKER_PORT + (gwNumber + 1) * range_length)`. -/
def inWindow (gwNumber p : Nat) : Prop :=
  MIN_DOCKER_PORT + gwNumber * range_length ≤ p ∧
    p < MIN_DOCKER_PORT + (gwNumber + 1) * range_length

instance (gwNumber p : Nat) : Decidable (inWindow gwNumber p) := by
  unfold inWindow; infer_instance

/-! ## Readiness wait (launchers.py, `ADCMLauncher._wait_adcm_container_init`)

The HTTP poll `requests.get(url, timeout=1, verify=False)` is the oracle
`polls : Nat -> Poll` (status code, or a `RequestException` message).  The
wall-clock loop `while utcnow() < stop_after` (timeout 300s, period 1s) is
abstracted by `pollBudget`, the number of poll iterations the time budget
allows.  The final `container.kill()` either succeeds or fails with an
`APIError` (input `killFails`). -/

/-- One poll of the health endpoint. -/
inductive Poll where
  | ok (status : Nat)
  | reqError (msg : String)
deriving DecidableEq

/-- The warning appended when `container.kill()` fails with an `APIError`. -/
def killWarning : String :=
  "\nWARNING: Failed to kill docker container. Try to remove it by hand"

/-- The `TimeoutError` message built in launchers.py lines 101-112 from the
last transient error (if any) and the kill failure (if it happened). -/
def timeoutMessage (lastError : Option String) (killFails : Bool) : String :=
  "ADCM API has not responded in 300 seconds." ++
    (match lastError with
      | some m => "\nLast error was: " ++ m
      | none => "") ++
    (if killFails then killWarning else "")

/-- The polling loop: return on status 200, remember the message of a
`RequestException`, and after the budget is exhausted raise the timeout
error (kill failure appended, never raised in place of it). -/
def waitLoop (polls : Nat → Poll) (killFails : Bool) : Nat → Nat → Option String → Except String Unit
  | _, 0, lastError => .error (timeoutMessage lastError killFails)
  | i, fuel + 1, lastError =>
    match polls i with
    | .ok status =>
      if status = 200 then .ok ()
      else waitLoop polls killFails (i + 1) fuel lastError
    | .reqError m => waitLoop polls killFails (i + 1) fuel (some m)

/-- `ADCMLauncher._wait_adcm_container_init` (launchers.py lines 86-112). -/
def _wait_adcm_container_init (polls : Nat → Poll) (pollBudget : Nat) (killFails : Bool) :
    Except String Unit :=
  waitLoop polls killFails 0 pollBudget none

/-- The value `last_error` holds after scanning polls `i, i+1, ...` for `fuel`
steps starting from accumulator `lastError`. -/
def lastErrAux (polls : Nat → Poll) : Nat → Nat → Option String → Option String
  | _, 0, lastError => lastError
  | i, fuel + 1, lastError =>
    lastErrAux polls (i + 1) fuel
      (match polls i with
        | .reqError m => some m
        | _ => lastError)

/-- The last transient error observed among the first `n` polls. -/
def lastObservedError (polls : Nat → Poll) (n : Nat) : Option String :=
  lastErrAux polls 0 n none

/-! ## ContainerConfig and the ADCM instance handle (docker_utils.py)

Only the fields the claims need are modelled.  Port fields are the strings
rendered into the URL f-string (the Python values may be ints or strings). -/

/-- A value of the `volumes` mapping: `{"bind": ..., "mode": ...}`. -/
structure VolumeSpec where
  bind : String
  mode : String
deriving DecidableEq

/-- `ContainerConfig` (docker_utils.py lines 317-335), restricted to the
fields used by `ADCM.url` / `ADCM.port` / `ADCM.protocol` / `ADCM.upgrade`.
`volumes` is the insertion-ordered `volumes` dict (None and `{}` are both
modelled by the empty list, as both are falsy under `assert`). -/
structure ContainerConfig where
  https : Bool
  apiIp : String
  apiPort : String
  apiSecurePort : String
  volumes : List (String × VolumeSpec)
deriving DecidableEq

/-- `ADCM.protocol` (docker_utils.py lines 484-487). -/
def ADCM.protocol (c : ContainerConfig) : String :=
  if c.https then "https" else "http"

/-- `ADCM.port` (docker_utils.py lines 479-482): the secure port when
`https` is on, the plain API port otherwise. -/
def ADCM.port (c : ContainerConfig) : String :=
  if c.https then c.apiSecurePort else c.apiPort

/-- `ADCM.ip` (docker_utils.py lines 474-477). -/
def ADCM.ip (c : ContainerConfig) : String :=
  c.apiIp

/-- `ADCM.url` (docker_utils.py lines 469-472):
`f"{self.protocol}://{self.ip}:{self.port}"`. -/
def ADCM.url (c : ContainerConfig) : String :=
  ADCM.protocol c ++ "://" ++ ADCM.ip c ++ ":" ++ ADCM.port c

/-! ## `ADCM.upgrade` (docker_utils.py lines 505-525) -/

/-- Side effects of `ADCM.upgrade`, in order. -/
inductive AdcmUpgradeStep where
  | copyData (destBind : String)
  | stopContainer
  | startContainer (image tag : String)
deriving DecidableEq

/-- The assertion message of `ADCM.upgrade`. -/
def noVolumeMsg : String :=
  "There is no volume to move data. Make sure you are using the correct ADCM fixture for upgrade"

/-- `ADCM.upgrade` (docker_utils.py lines 505-525): assert the config has a
non-empty `volumes` mapping (an `AssertionError` otherwise, with no effect
performed); then copy `/adcm/data` into the bind path of the last volume,
update image and tag, stop the old container and start the new one.
Returns the effect trace and the raised error, if any. -/
def ADCM.upgrade (cfg : ContainerConfig) (image tag : String) :
    List AdcmUpgradeStep × Option String :=
  match cfg.volumes with
  | [] => ([], some noVolumeMsg)
  | v :: vs =>
    let lastVolume := List.getLastD vs v
    ([.copyData lastVolume.2.bind, .stopContainer, .startContainer image tag], none)

/-! ## `ADCMLauncher.stop` with pre_stop hooks (launchers.py lines 168-178)

Each registered `pre_stop` hook is modelled by its outcome: `none` when it
returns normally, `some e` when it raises an exception rendered as `e`.
The `_add_step_on_error` context manager (lines 23-29) catches the exception
and records an allure step `[ERROR] {err}` instead of propagating. -/

/-- Observable trace of `ADCMLauncher.stop`. -/
structure StopTrace where
  hooksRun : List Nat := []
  diagnostics : List String := []
  containerStopped : Bool := false
  volumesRemoved : Bool := false
deriving DecidableEq

/-- Run one body under `_add_step_on_error`: the state changes the body made
are kept; a raised exception is converted into a `[ERROR] ...` diagnostic. -/
def _add_step_on_error (t : StopTrace) (body : StopTrace → StopTrace × Option String) : StopTrace :=
  match body t with
  | (t1, none) => t1
  | (t1, some e) => { t1 with diagnostics := t1.diagnostics ++ ["[ERROR] " ++ e] }

/-- Invocation of the pre_stop hook with index `i`: it records itself as
invoked, then either returns or raises its outcome. -/
def preStopHook (i : Nat) (outcome : Option String) (t : StopTrace) : StopTrace × Option String :=
  ({ t with hooksRun := t.hooksRun ++ [i] }, outcome)

/-- `ADCMLauncher.stop` (launchers.py lines 168-178): run every pre_stop hook
in registration order under `_add_step_on_error`, then stop the container
(a `ReadTimeout` is suppressed) and remove its volumes. -/
def launcherStop (hooks : List (Option String)) : StopTrace :=
  let afterHooks :=
    (hooks.enum).foldl (fun t p => _add_step_on_error t (preStopHook p.1 p.2)) {}
  { afterHooks with containerStopped := true, volumesRemoved := true }

/-! ## Image preparation (docker_utils.py, `ADCMInitializer` and `image_exists`) -/

/-- Side effects of `ADCMInitializer.init_adcm` (docker_utils.py lines
202-216): start the base instance (which blocks on the readiness wait), run
the optional preparation steps, stop, commit and remove the base container. -/
inductive PrepEffect where
  | startBaseContainer
  | waitReady
  | preuploadBundles
  | fillDummyData
  | generateCerts
  | stopBase
  | commitImage (repo tag : String)
  | removeBase
deriving DecidableEq

/-- `image_exists(repo, tag, dc)` (docker_utils.py lines 274-285): the runtime
image lookup `dc.images.get(name=f"{repo}:{tag}")` is the oracle `imagesGet`. -/
def image_exists (imagesGet : String → Bool) (repo tag : String) : Bool :=
  imagesGet (repo ++ ":" ++ tag)

/-- `ADCMInitializer.init_adcm` (docker_utils.py lines 202-216): returns the
`(repo, tag)` reference and the full effect trace of building the image. -/
def init_adcm (repo tag : String) (preuploadUrls : List String)
    (fillDummyData generateCerts : Bool) : (String × String) × List PrepEffect :=
  ((repo, tag),
    [PrepEffect.startBaseContainer, PrepEffect.waitReady] ++
      (if preuploadUrls.isEmpty then [] else [PrepEffect.preuploadBundles]) ++
      (if fillDummyData then [PrepEffect.fillDummyData] else []) ++
      (if generateCerts then [PrepEffect.generateCerts] else []) ++
      [PrepEffect.stopBase, PrepEffect.commitImage repo tag, PrepEffect.removeBase])

/-- `ADCMInitializer.get_initialized_adcm_image` (docker_utils.py lines
188-200): when an image named `repo:tag` already exists, return that reference
with no side effect; otherwise build it via `init_adcm`. -/
def get_initialized_adcm_image (imagesGet : String → Bool) (repo tag : String)
    (preuploadUrls : List String) (fillDummyData generateCerts : Bool) :
    (String × String) × List PrepEffect :=
  if image_exists imagesGet repo tag then ((repo, tag), [])
  else init_adcm repo tag preuploadUrls fillDummyData generateCerts

/-! ## Run-argument building (launchers.py lines 62-74, steps.py `mount_ssl_certs`)

Python dicts are modelled as insertion-ordered association lists with the
`dict.update` / `{**a, k: v}` semantics: an existing key is overwritten in
place, a new key is appended. -/

/-- A Python value appearing in the run-kwargs dict. -/
inductive JVal where
  | b (v : Bool)
  | s (v : String)
  | n (v : Nat)
  | dict (entries : List (String × JVal))

/-- An insertion-ordered Python dict with string keys. -/
abbrev PyDict := List (String × JVal)

/-- `d[k] = v`: overwrite in place when `k` is present, append otherwise. -/
def setKey (d : PyDict) (k : String) (v : JVal) : PyDict :=
  if d.any (fun p => p.1 == k) then
    d.map (fun p => if p.1 == k then (k, v) else p)
  else d ++ [(k, v)]

/-- Python `d.update(upd)`. -/
def dictUpdate (d upd : PyDict) : PyDict :=
  upd.foldl (fun acc p => setKey acc p.1 p.2) d

/-- Python `d.get(k)` / `d[k]`. -/
def lookupKey (d : PyDict) (k : String) : Option JVal :=
  (d.find? (fun p => p.1 == k)).map (fun p => p.2)

/-- Python `k in d`. -/
def hasKey (d : PyDict) (k : String) : Bool :=
  d.any (fun p => p.1 == k)

/-- The entries of the nested `volumes` dict of a run-kwargs dict
(`run_args.get("volumes", {})`). -/
def getVolumesEntries (d : PyDict) : PyDict :=
  match lookupKey d ("volumes") with
  | some (JVal.dict es) => es
  | _ => []

/-- `ADCMLauncher._prepare_default_kwargs` (launchers.py lines 62-63). -/
def prepare_default_kwargs : PyDict :=
  [("remove", JVal.b true)]

/-- The run-argument fold of `_run_adcm_container` (launchers.py lines 67-69):
start from the default kwargs and, for each `prepare_run_arguments` hook in
registration order, `kwargs.update(step(self, {**kwargs}))` — each hook sees a
copy of the accumulated dict and its returned partial update is merged in with
the top-level `dict.update` semantics. -/
def buildRunKwargs (hooks : List (PyDict → PyDict)) : PyDict :=
  hooks.foldl (fun kwargs step => dictUpdate kwargs (step kwargs)) prepare_default_kwargs

/-- `final_kwargs = kwargs_mutator(kwargs)` (launchers.py line 71). -/
def finalRunKwargs (mutator : PyDict → PyDict) (hooks : List (PyDict → PyDict)) : PyDict :=
  mutator (buildRunKwargs hooks)

/-- The volume value `{"bind": "/adcm/data/conf/ssl", "mode": "ro"}` that
`mount_ssl_certs` contributes. -/
def ssl_volume_spec : JVal :=
  JVal.dict [("bind", JVal.s "/adcm/data/conf/ssl"), ("mode", JVal.s "ro")]

/-- `mount_ssl_certs` (steps.py lines 72-75): read the accumulated `volumes`
(empty when absent) and return `{"volumes": {**volumes, cert_dir.name: ...}}`,
spreading the earlier entries into its own update. -/
def mount_ssl_certs (certDir : String) (runArgs : PyDict) : PyDict :=
  let volumes := getVolumesEntries runArgs
  [("volumes", JVal.dict (setKey volumes certDir ssl_volume_spec))]

/-! ## `ADCMLauncher.upgrade` (launchers.py lines 141-166)

The container inspection result is the `mounts` list; the
`last-launch-kwargs` step fact recorded by `add_step_fact` at line 72 is the
`lastLaunchKwargs` input (`none` when the instance was never started via
`run`). -/

/-- One entry of `inspect_container(...)["Mounts"]`. -/
structure Mount where
  destination : String
  name : Option String

/-- Side effects of `ADCMLauncher.upgrade`, in order. -/
inductive LauncherUpgradeStep where
  | stopOldContainer
  | runNewContainer (kwargs : PyDict)

/-- The errors `ADCMLauncher.upgrade` can raise before touching containers. -/
inductive LauncherUpgradeError where
  | noSuitableVolume
  | volumeWithoutName
  | noRecordedLaunchKwargs
deriving DecidableEq

/-- Python falsiness of `suitable_volume.get("Name")`. -/
def nameMissing : Option String → Bool
  | none => true
  | some s => s.isEmpty

/-- `ADCMLauncher.upgrade` (launchers.py lines 141-166): find a mount whose
destination is `/adcm/data` (a `RuntimeError` otherwise), require it to have a
name, require the `last-launch-kwargs` step fact recorded by the last `run`
(a `RuntimeError` otherwise) — all before any container is stopped; then stop
the old container and run the new one through `_run_adcm_container` with the
mutator `lambda _: {**previous_run_kwargs}`, so the rebuilt kwargs are
discarded and the recorded ones are reused exactly. -/
def launcher_upgrade (mounts : List Mount) (lastLaunchKwargs : Option PyDict)
    (hooks : List (PyDict → PyDict)) :
    List LauncherUpgradeStep × Option LauncherUpgradeError :=
  match mounts.find? (fun m => m.destination == "/adcm/data") with
  | none => ([], some .noSuitableVolume)
  | some m =>
    if nameMissing m.name then ([], some .volumeWithoutName)
    else
      match lastLaunchKwargs with
      | none => ([], some .noRecordedLaunchKwargs)
      | some kw =>
        ([.stopOldContainer,
          .runNewContainer (finalRunKwargs (fun _ => kw) hooks)], none)

/-! ## Helper lemmas -/

theorem strAppendAssoc (a b c : String) : a ++ b ++ c = a ++ (b ++ c) := by
  apply String.ext
  simp [String.data_append, List.append_assoc]

theorem range_length_eq : range_length = 12 := rfl

/-! ## Claim C4 -/

/-- Claim C4: calling `ADCM.upgrade` on a handle whose configuration has an
empty `volumes` mapping raises the configuration assertion before any
container is stopped or started: the raised error is the assertion message and
the effect trace is empty (no data-copy, no stop, no start). -/
theorem upgrade_empty_volumes_fails_fast (cfg : ContainerConfig) (image tag : String)
    (h : cfg.volumes = []) :
    (ADCM.upgrade cfg image tag).2 = some noVolumeMsg ∧
      (ADCM.upgrade cfg image tag).1 = [] := by
  unfold ADCM.upgrade
  rw [h]
  exact ⟨rfl, rfl⟩

/-- Witness for C4 at a concrete configuration with an empty volumes mapping. -/
theorem upgrade_empty_volumes_fails_fast_witness :
    (ADCM.upgrade ⟨true, "127.0.0.1", "8000", "8443", []⟩ "hub.arenadata.io/adcm/adcm" "v2").2
        = some noVolumeMsg ∧
      (ADCM.upgrade ⟨true, "127.0.0.1", "8000", "8443", []⟩ "hub.arenadata.io/adcm/adcm" "v2").1
        = [] :=
  upgrade_empty_volumes_fails_fast _ _ _ rfl

/-! ## Claim C6 -/

/-- Claim C6: when an image named `repo:tag` already exists in the runtime,
`get_initialized_adcm_image` returns that `(repo, tag)` reference with zero
start-base-instance side effects; when it does not exist, the initialization
(whose first effect is starting the base instance) runs, so the existence
check alone decides the short-circuit. -/
theorem image_prepare_short_circuits (imagesGet : String → Bool) (repo tag : String)
    (preuploadUrls : List String) (fillDummyData generateCerts : Bool) :
    (image_exists imagesGet repo tag = true →
      get_initialized_adcm_image imagesGet repo tag preuploadUrls fillDummyData generateCerts
        = ((repo, tag), [])) ∧
    (image_exists imagesGet repo tag = false →
      ((get_initialized_adcm_image imagesGet repo tag preuploadUrls fillDummyData
          generateCerts).1 = (repo, tag) ∧
        (get_initialized_adcm_image imagesGet repo tag preuploadUrls fillDummyData
          generateCerts).2.head? = some PrepEffect.startBaseContainer)) := by
  constructor
  · intro h
    unfold get_initialized_adcm_image
    rw [h]
    rfl
  · intro h
    unfold get_initialized_adcm_image
    rw [h]
    exact ⟨rfl, rfl⟩

/-- Witness for C6: an existing image short-circuits; a missing one starts the
base instance. -/
theorem image_prepare_short_circuits_witness :
    get_initialized_adcm_image (fun _ => true) "local/adcminit" "abc123" [] false false
        = (("local/adcminit", "abc123"), []) ∧
      (get_initialized_adcm_image (fun _ => false) "local/adcminit" "abc123" [] false
          false).2.head? = some PrepEffect.startBaseContainer :=
  ⟨(image_prepare_short_circuits (fun _ => true) _ _ _ _ _).1 rfl,
    ((image_prepare_short_circuits (fun _ => false) _ _ _ _ _).2 rfl).2⟩

/-! ## Claim C7 -/

/-- A TLS-enabled configuration whose secure API port differs from the plain
API port, as produced by `_get_adcm_ip_and_port` (e.g. "8000" vs "8443"). -/
def httpsConfig : ContainerConfig :=
  ⟨true, "127.0.0.1", "8000", "8443", []⟩

/-- Counterexample to C7 as stated: for a TLS-enabled handle the derived url
is built from `api_secure_port`, not from `api_port`, so it differs from
`protocol://api_address:api_port`. -/
theorem url_literal_formula_counterexample :
    ADCM.url httpsConfig ≠
      ADCM.protocol httpsConfig ++ "://" ++ httpsConfig.apiIp ++ ":" ++ httpsConfig.apiPort := by
  decide

/-- Claim C7 amended: the derived url equals `protocol://api_address:P` where
`P` is `api_secure_port` when the TLS flag is enabled and `api_port`
otherwise, and the protocol is `https` exactly when the TLS flag is enabled. -/
theorem url_formula (c : ContainerConfig) :
    ADCM.url c =
      ADCM.protocol c ++ "://" ++ c.apiIp ++ ":" ++
        (if c.https then c.apiSecurePort else c.apiPort) ∧
    (ADCM.protocol c = "https" ↔ c.https = true) := by
  obtain ⟨https, ip, p, sp, vols⟩ := c
  cases https
  · refine ⟨rfl, ?_⟩
    simp only [ADCM.protocol, if_neg Bool.false_ne_true]
    decide
  · refine ⟨rfl, ?_⟩
    simp [ADCM.protocol]

/-! ## Claim C2 -/

/-- Every port of the scanned window of worker `gwNumber` (with the default
`port_from = 0`) lies in that worker's allocation window. -/
theorem probed_mem_window (workerCount gwNumber : Nat) (free : Nat → Bool)
    (hwc : workerCount ≤ MAX_WORKER_COUNT) :
    ∀ p ∈ (_yield_ports workerCount gwNumber 0 free).probed, inWindow gwNumber p := by
  intro p hp
  unfold _yield_ports at hp
  rw [if_neg (Nat.not_lt.mpr hwc)] at hp
  simp only [List.mem_map, List.mem_range] at hp
  obtain ⟨a, ha, rfl⟩ := hp
  simp only [inWindow, Nat.succ_mul, Nat.zero_max]
  omega

/-- Claim C2: for every worker index within the configured maximum (and a
worker count within the maximum, so the generator body runs), every port the
allocator yields lies in the worker's window
`[MIN_DOCKER_PORT + i * range_length, MIN_DOCKER_PORT + (i+1) * range_length)`;
windows of distinct worker indices are disjoint; and when no port of the
window is free the allocator fails with `UnableToBind`. -/
theorem port_allocation_windows (workerCount gwNumber : Nat) (free : Nat → Bool)
    (hwc : workerCount ≤ MAX_WORKER_COUNT) (_hgw : gwNumber < MAX_WORKER_COUNT) :
    (∀ p ∈ (_yield_ports workerCount gwNumber 0 free).yielded, inWindow gwNumber p) ∧
    (∀ gw2 p, gw2 < MAX_WORKER_COUNT → gwNumber ≠ gw2 →
      inWindow gwNumber p → ¬ inWindow gw2 p) ∧
    ((∀ p, inWindow gwNumber p → free p = false) →
      nextPort workerCount gwNumber 0 free = NextPortResult.unableToBind) := by
  refine ⟨?_, ?_, ?_⟩
  · intro p hp
    apply probed_mem_window workerCount gwNumber free hwc
    unfold _yield_ports at hp ⊢
    rw [if_neg (Nat.not_lt.mpr hwc)] at hp ⊢
    exact List.mem_of_mem_filter hp
  · intro gw2 p _ hne h1 h2
    apply hne
    simp only [inWindow, range_length_eq, MIN_DOCKER_PORT] at h1 h2
    omega
  · intro hfree
    have hnil : (_yield_ports workerCount gwNumber 0 free).yielded = [] := by
      unfold _yield_ports
      rw [if_neg (Nat.not_lt.mpr hwc)]
      simp only
      rw [List.filter_eq_nil_iff]
      intro p hp
      have hw : inWindow gwNumber p := by
        apply probed_mem_window workerCount gwNumber free hwc
        unfold _yield_ports
        rw [if_neg (Nat.not_lt.mpr hwc)]
        exact hp
      simp [hfree p hw]
    have hex : (_yield_ports workerCount gwNumber 0 free).exitedEarly = false := by
      unfold _yield_ports
      rw [if_neg (Nat.not_lt.mpr hwc)]
    simp [nextPort, hex, hnil]

/-- Witness for C2 at worker index 5 (window [8060, 8072)): a yielded port is
in the window, window 7 is disjoint from window 5 at 8060, and with no free
port the allocator raises `UnableToBind`. -/
theorem port_allocation_windows_witness :
    inWindow 5 8060 ∧ ¬ inWindow 7 8060 ∧
      nextPort 1 5 0 (fun _ => false) = NextPortResult.unableToBind := by
  have h := port_allocation_windows 1 5 (fun _ => true) (by decide) (by decide)
  have h2 := port_allocation_windows 1 5 (fun _ => false) (by decide) (by decide)
  exact ⟨h.1 8060 (by decide), h.2.1 7 8060 (by decide) (by decide) (by decide),
    h2.2.2 (fun p _ => rfl)⟩

/-! ## Claim C8 -/

/-- Counterexample to C8 as stated: with a worker index of 81 (exceeding the
maximum of 80) but the configured worker count at its default 0, the allocator
does not fail fast: the early exit does not fire, TCP connect attempts are
made, and the scan ends in `UnableToBind`, not in the worker-count exit. -/
theorem worker_index_not_checked_counterexample :
    (_yield_ports 0 81 0 (fun _ => false)).exitedEarly = false ∧
      (_yield_ports 0 81 0 (fun _ => false)).probed ≠ [] ∧
      nextPort 0 81 0 (fun _ => false) = NextPortResult.unableToBind := by
  decide

/-- Claim C8 amended: it is the configured worker count (the
`PYTEST_XDIST_WORKER_COUNT` environment value), not the current worker index,
whose excess over the configured maximum makes port allocation fail fast with
the worker-count exit before any TCP connect attempt is made. -/
theorem worker_count_fail_fast (workerCount gwNumber portFrom : Nat) (free : Nat → Bool)
    (h : MAX_WORKER_COUNT < workerCount) :
    (_yield_ports workerCount gwNumber portFrom free).probed = [] ∧
      nextPort workerCount gwNumber portFrom free = NextPortResult.workerCountExceeded := by
  unfold nextPort _yield_ports
  rw [if_pos h]
  exact ⟨rfl, rfl⟩

/-- Witness for C8 amended: worker count 81 makes allocation exit before any
connect attempt. -/
theorem worker_count_fail_fast_witness :
    (_yield_ports 81 0 0 (fun _ => true)).probed = [] ∧
      nextPort 81 0 0 (fun _ => true) = NextPortResult.workerCountExceeded :=
  worker_count_fail_fast 81 0 0 (fun _ => true) (by decide)

/-! ## Claim C1 -/

/-- The retry loop never makes more start attempts than it has fuel. -/
theorem runContainerAttempts_le (attempt : Nat → RunOutcome) :
    ∀ (fuel i : Nat), (runContainerAttempts attempt i fuel).2 ≤ fuel := by
  intro fuel
  induction fuel with
  | zero =>
    intro i
    exact Nat.le_refl 0
  | succ n ih =>
    intro i
    unfold runContainerAttempts
    cases attempt i with
    | started c => exact Nat.le_add_left 1 n
    | apiError e =>
      by_cases hc : isPortCollision e
      · simp only [if_pos hc]
        exact Nat.succ_le_succ (ih (i + 1))
      · simp only [if_neg hc]
        exact Nat.le_add_left 1 n

/-- When every attempt in reach raises a recognized port collision, the loop
burns all its fuel and raises `RetryCountExceeded`. -/
theorem runContainerAttempts_all_collide (attempt : Nat → RunOutcome) :
    ∀ (fuel i : Nat),
      (∀ j, j < fuel → ∃ e, attempt (i + j) = RunOutcome.apiError e ∧ isPortCollision e = true) →
      runContainerAttempts attempt i fuel =
        (Except.error (RunError.retryCountExceeded retryExceededMsg), fuel) := by
  intro fuel
  induction fuel with
  | zero =>
    intro i _
    rfl
  | succ n ih =>
    intro i h
    obtain ⟨e, he, hc⟩ := h 0 (Nat.succ_pos n)
    rw [Nat.add_zero] at he
    have hrest : ∀ j, j < n →
        ∃ e, attempt (i + 1 + j) = RunOutcome.apiError e ∧ isPortCollision e = true := by
      intro j hj
      have hh := h (j + 1) (Nat.succ_lt_succ hj)
      rwa [show i + (j + 1) = i + 1 + j by omega] at hh
    unfold runContainerAttempts
    rw [he]
    simp only [if_pos hc, ih (i + 1) hrest]

/-- Claim C1: if every container start attempt raises an `APIError` whose
explanation contains one of the matched port-collision substrings,
`_run_adcm_container` raises `RetryCountExceeded` after exactly
`CONTAINER_START_RETRY_COUNT = 20` start attempts; and on any oracle it never
makes more than 20 attempts. -/
theorem retry_cap_exact :
    (∀ attempt : Nat → RunOutcome,
      (∀ j, j < CONTAINER_START_RETRY_COUNT →
        ∃ e, attempt j = RunOutcome.apiError e ∧ isPortCollision e = true) →
      run_adcm_container attempt =
        (Except.error (RunError.retryCountExceeded retryExceededMsg),
          CONTAINER_START_RETRY_COUNT)) ∧
    (∀ attempt : Nat → RunOutcome,
      (run_adcm_container attempt).2 ≤ CONTAINER_START_RETRY_COUNT) := by
  constructor
  · intro attempt h
    unfold run_adcm_container
    apply runContainerAttempts_all_collide attempt CONTAINER_START_RETRY_COUNT 0
    intro j hj
    rw [Nat.zero_add]
    exact h j hj
  · intro attempt
    exact runContainerAttempts_le attempt CONTAINER_START_RETRY_COUNT 0

/-- Witness for C1: a runtime that always reports the port-collision error
"bind: address already in use" makes the launcher raise `RetryCountExceeded`
after exactly 20 attempts. -/
theorem retry_cap_exact_witness :
    run_adcm_container
        (fun _ => RunOutcome.apiError
          ("driver failed programming external connectivity: bind: address already in use")) =
      (Except.error (RunError.retryCountExceeded retryExceededMsg),
        CONTAINER_START_RETRY_COUNT) :=
  retry_cap_exact.1 _ (fun _ _ => ⟨_, rfl, by decide⟩)

/-! ## Claim C3 -/

/-- When no poll in reach returns status 200, the wait loop exhausts its
budget and raises the timeout error carrying the last transient error. -/
theorem waitLoop_timeout (polls : Nat → Poll) (killFails : Bool) :
    ∀ (fuel i : Nat) (lastError : Option String),
      (∀ j, i ≤ j → j < i + fuel → polls j ≠ Poll.ok 200) →
      waitLoop polls killFails i fuel lastError =
        Except.error (timeoutMessage (lastErrAux polls i fuel lastError) killFails) := by
  intro fuel
  induction fuel with
  | zero =>
    intro i lastError _
    rfl
  | succ n ih =>
    intro i lastError h
    have hi : polls i ≠ Poll.ok 200 := h i (Nat.le_refl i) (by omega)
    have hrest : ∀ j, i + 1 ≤ j → j < i + 1 + n → polls j ≠ Poll.ok 200 := by
      intro j h1 h2
      exact h j (by omega) (by omega)
    cases hp : polls i with
    | ok status =>
      have hs : ¬ status = 200 := by
        intro hcon
        rw [hcon] at hp
        exact hi hp
      unfold waitLoop lastErrAux
      rw [hp]
      simp only [if_neg hs]
      exact ih (i + 1) lastError hrest
    | reqError m =>
      unfold waitLoop lastErrAux
      rw [hp]
      exact ih (i + 1) (some m) hrest

/-- Claim C3: the readiness wait returns without error as soon as the health
endpoint returns HTTP 200 (immediately when the first poll succeeds); when no
poll within the budget returns 200 it raises the readiness-timeout error,
whose message embeds the last observed transient error when one occurred, and
a failing best-effort container kill only appends the warning to the message
(the result is still the timeout error, never a kill error). -/
theorem wait_ready_contract (polls : Nat → Poll) (pollBudget : Nat) (killFails : Bool) :
    (0 < pollBudget → polls 0 = Poll.ok 200 →
      _wait_adcm_container_init polls pollBudget killFails = Except.ok ()) ∧
    ((∀ i, i < pollBudget → polls i ≠ Poll.ok 200) →
      _wait_adcm_container_init polls pollBudget killFails =
        Except.error (timeoutMessage (lastObservedError polls pollBudget) killFails) ∧
      (∀ e, lastObservedError polls pollBudget = some e →
        ∃ pre post,
          timeoutMessage (lastObservedError polls pollBudget) killFails =
            pre ++ (e ++ post)) ∧
      (killFails = true →
        ∃ pre,
          timeoutMessage (lastObservedError polls pollBudget) killFails =
            pre ++ killWarning)) := by
  constructor
  · intro hpos h0
    cases pollBudget with
    | zero => omega
    | succ n =>
      unfold _wait_adcm_container_init waitLoop
      rw [h0]
      rfl
  · intro hnever
    refine ⟨?_, ?_, ?_⟩
    · unfold _wait_adcm_container_init lastObservedError
      apply waitLoop_timeout
      intro j h1 h2
      exact hnever j (by omega)
    · intro e he
      rw [he]
      unfold timeoutMessage
      refine ⟨"ADCM API has not responded in 300 seconds." ++ ("\nLast error was: "),
        (if killFails then killWarning else ""), ?_⟩
      simp only [strAppendAssoc]
    · intro hk
      rw [hk]
      unfold timeoutMessage
      exact ⟨_, rfl⟩

/-- Witness for C3: a first poll at 200 returns immediately; an endpoint that
always raises a connection error yields the timeout error built from the last
transient error, with the kill warning appended. -/
theorem wait_ready_contract_witness :
    _wait_adcm_container_init (fun _ => Poll.ok 200) 300 false = Except.ok () ∧
      _wait_adcm_container_init (fun _ => Poll.reqError ("connection refused")) 3 true =
        Except.error
          (timeoutMessage
            (lastObservedError (fun _ => Poll.reqError ("connection refused")) 3) true) := by
  constructor
  · exact (wait_ready_contract _ 300 false).1 (by omega) rfl
  · exact ((wait_ready_contract _ 3 true).2 (fun i _ h => Poll.noConfusion h)).1

/-! ## Claim C5 -/

/-- Invariant of the pre_stop fold: starting from any trace `t`, the fold over
the hooks enumerated from `i` appends exactly the indices `i, i+1, ...` to the
invoked list and the `[ERROR]` diagnostics of the raising hooks, and leaves
the stop flags untouched. -/
theorem stop_fold_invariant (hooks : List (Option String)) :
    ∀ (i : Nat) (t : StopTrace),
      List.foldl (fun t p => _add_step_on_error t (preStopHook p.1 p.2))
          t (List.enumFrom i hooks) =
        { t with
            hooksRun := t.hooksRun ++ List.range' i hooks.length,
            diagnostics := t.diagnostics ++
              hooks.filterMap (fun o => o.map (fun e => "[ERROR] " ++ e)) } := by
  induction hooks with
  | nil =>
    intro i t
    simp [List.enumFrom, List.range']
  | cons o os ih =>
    intro i t
    cases o with
    | none =>
      have hstep :
          _add_step_on_error t (preStopHook i none) =
            { t with hooksRun := t.hooksRun ++ [i] } := rfl
      simp only [List.enumFrom, List.foldl_cons, hstep, ih (i + 1), List.range',
        List.filterMap_cons, Option.map_none']
      simp [List.append_assoc]
    | some e =>
      have hstep :
          _add_step_on_error t (preStopHook i (some e)) =
            { t with
                hooksRun := t.hooksRun ++ [i],
                diagnostics := t.diagnostics ++ ["[ERROR] " ++ e] } := rfl
      simp only [List.enumFrom, List.foldl_cons, hstep, ih (i + 1), List.range',
        List.filterMap_cons, Option.map_some']
      simp [List.append_assoc]

/-- Claim C5: `launcherStop` invokes every registered pre_stop hook in
registration order — also when some hooks raise — converts each raised
exception into an `[ERROR]` diagnostic instead of propagating it, and still
executes the container-stop and volume-removal steps. -/
theorem stop_hook_isolation (hooks : List (Option String)) :
    (launcherStop hooks).hooksRun = List.range hooks.length ∧
      (launcherStop hooks).diagnostics =
        hooks.filterMap (fun o => o.map (fun e => "[ERROR] " ++ e)) ∧
      (launcherStop hooks).containerStopped = true ∧
      (launcherStop hooks).volumesRemoved = true := by
  unfold launcherStop
  rw [show hooks.enum = List.enumFrom 0 hooks from rfl, stop_fold_invariant hooks 0 {}]
  refine ⟨?_, rfl, rfl, rfl⟩
  simp [List.range_eq_range']

/-! ## Claim C9 -/

/-- `setKey` keeps every key that was already present. -/
theorem hasKey_setKey_mono (d : PyDict) (k k2 : String) (v : JVal)
    (h : hasKey d k2 = true) : hasKey (setKey d k v) k2 = true := by
  unfold hasKey at h
  unfold setKey hasKey
  by_cases hc : d.any (fun p => p.1 == k)
  · rw [if_pos hc, List.any_map, List.any_eq_true]
    rw [List.any_eq_true] at h
    obtain ⟨x, hx, hk⟩ := h
    refine ⟨x, hx, ?_⟩
    by_cases hxk : x.1 == k
    · have e1 : x.1 = k := by simpa using hxk
      simp only [Function.comp, if_pos hxk]
      rw [← e1]
      exact hk
    · simp only [Function.comp, if_neg hxk]
      exact hk
  · rw [if_neg hc, List.any_append, h]
    rfl

/-- After `setKey d k v` the key `k` is present. -/
theorem hasKey_setKey_self (d : PyDict) (k : String) (v : JVal) :
    hasKey (setKey d k v) k = true := by
  unfold setKey hasKey
  by_cases hc : d.any (fun p => p.1 == k)
  · rw [if_pos hc, List.any_map, List.any_eq_true]
    rw [List.any_eq_true] at hc
    obtain ⟨x, hx, hk⟩ := hc
    refine ⟨x, hx, ?_⟩
    simp only [Function.comp, if_pos hk]
    simp
  · rw [if_neg hc, List.any_append]
    simp

/-- Counterexample to C9 as stated: the fold merges each hook's update with
the top-level `dict.update`, so a later hook that contributes its own
`volumes` dict without spreading the accumulated one replaces it entirely —
the distinct key contributed by the earlier hook is gone from the final
arguments. -/
theorem run_kwargs_nested_replace_counterexample :
    hasKey
        (getVolumesEntries
          (buildRunKwargs
            [fun _ => [("volumes", JVal.dict [("/hostA", JVal.s "a")])],
              fun _ => [("volumes", JVal.dict [("/hostB", JVal.s "b")])]]))
        ("/hostA") = false ∧
      hasKey
        (getVolumesEntries
          (buildRunKwargs
            [fun _ => [("volumes", JVal.dict [("/hostA", JVal.s "a")])],
              fun _ => [("volumes", JVal.dict [("/hostB", JVal.s "b")])]]))
        ("/hostB") = true := by
  exact ⟨rfl, rfl⟩

/-- Claim C9 amended: `_run_adcm_container` folds the ordered
`prepare_run_arguments` hooks over the base default `{"remove": true}` with
the top-level `dict.update` semantics, each hook receiving the accumulated
dict; a later hook's value for a key replaces the accumulated one, and nested
`volumes` entries of earlier hooks survive because hooks such as
`mount_ssl_certs` spread the accumulated `volumes` into their returned update
— with such a second hook, every volumes key of the first hook and the
certificate key both appear in the final arguments. -/
theorem run_kwargs_fold_amended (entries : PyDict) (certDir : String) :
    buildRunKwargs [fun _ => [("volumes", JVal.dict entries)], mount_ssl_certs certDir] =
      [("remove", JVal.b true),
        ("volumes", JVal.dict (setKey entries certDir ssl_volume_spec))] ∧
    (∀ k, hasKey entries k = true →
      hasKey
        (getVolumesEntries
          (buildRunKwargs
            [fun _ => [("volumes", JVal.dict entries)], mount_ssl_certs certDir]))
        k = true) ∧
    hasKey
        (getVolumesEntries
          (buildRunKwargs
            [fun _ => [("volumes", JVal.dict entries)], mount_ssl_certs certDir]))
        certDir = true := by
  have hfold :
      buildRunKwargs [fun _ => [("volumes", JVal.dict entries)], mount_ssl_certs certDir] =
        [("remove", JVal.b true),
          ("volumes", JVal.dict (setKey entries certDir ssl_volume_spec))] := rfl
  have hvol :
      getVolumesEntries
          (buildRunKwargs
            [fun _ => [("volumes", JVal.dict entries)], mount_ssl_certs certDir]) =
        setKey entries certDir ssl_volume_spec := by
    rw [hfold]
    rfl
  refine ⟨hfold, ?_, ?_⟩
  · intro k hk
    rw [hvol]
    exact hasKey_setKey_mono entries certDir k ssl_volume_spec hk
  · rw [hvol]
    exact hasKey_setKey_self entries certDir ssl_volume_spec

/-- Witness for C9 amended: an earlier hook's volume key and the certificate
directory key both end up in the final volumes. -/
theorem run_kwargs_fold_amended_witness :
    hasKey
        (getVolumesEntries
          (buildRunKwargs
            [fun _ => [("volumes", JVal.dict [("/data", JVal.s "x")])],
              mount_ssl_certs ("/tmp/certs")]))
        ("/data") = true ∧
      hasKey
        (getVolumesEntries
          (buildRunKwargs
            [fun _ => [("volumes", JVal.dict [("/data", JVal.s "x")])],
              mount_ssl_certs ("/tmp/certs")]))
        ("/tmp/certs") = true :=
  ⟨(run_kwargs_fold_amended [("/data", JVal.s "x")] ("/tmp/certs")).2.1 ("/data") rfl,
    (run_kwargs_fold_amended [("/data", JVal.s "x")] ("/tmp/certs")).2.2⟩

/-! ## Claim C10 -/

/-- Claim C10: `ADCMLauncher.upgrade` on a launcher with no recorded
`last-launch-kwargs` fact raises before the old container is stopped and
before any new container is started (for any mounts the effect trace is empty
and an error is raised); and when the preconditions hold, the new container is
run with exactly the recorded kwargs of the last successful launch. -/
theorem upgrade_reuses_recorded_kwargs (mounts : List Mount)
    (hooks : List (PyDict → PyDict)) :
    ((launcher_upgrade mounts none hooks).1 = [] ∧
      (launcher_upgrade mounts none hooks).2.isSome = true) ∧
    (∀ kw m,
      List.find? (fun m => m.destination == "/adcm/data") mounts = some m →
      nameMissing m.name = false →
      launcher_upgrade mounts (some kw) hooks =
        ([LauncherUpgradeStep.stopOldContainer, LauncherUpgradeStep.runNewContainer kw],
          none)) := by
  constructor
  · cases hfind : List.find? (fun m => m.destination == "/adcm/data") mounts with
    | none => simp [launcher_upgrade, hfind]
    | some m =>
      by_cases hname : nameMissing m.name
      · simp [launcher_upgrade, hfind, hname]
      · simp [launcher_upgrade, hfind, hname]
  · intro kw m hfind hname
    simp only [launcher_upgrade, hfind, hname, Bool.false_eq_true, if_false]
    rfl

/-- A mount of the persistent-data path backed by a named volume. -/
def upgradeMount : Mount :=
  { destination := "/adcm/data", name := some "adcm-data-volume" }

/-- Witness for C10: with no recorded kwargs the upgrade fails with an empty
trace; with a suitable mount and recorded kwargs the new container is run with
exactly those kwargs. -/
theorem upgrade_reuses_recorded_kwargs_witness :
    ((launcher_upgrade [upgradeMount] none []).1 = [] ∧
      (launcher_upgrade [upgradeMount] none []).2.isSome = true) ∧
    launcher_upgrade [upgradeMount] (some prepare_default_kwargs) [] =
      ([LauncherUpgradeStep.stopOldContainer,
        LauncherUpgradeStep.runNewContainer prepare_default_kwargs], none) :=
  ⟨(upgrade_reuses_recorded_kwargs [upgradeMount] []).1,
    (upgrade_reuses_recorded_kwargs [upgradeMount] []).2 prepare_default_kwargs
      upgradeMount rfl rfl⟩
